import Mathlib

/-!
Verification of the initai.dev installer scripts (`initai.py`, `install.py`)
against their natural-language specification.

The Python sources are shallowly embedded: pure string/record computations
become Lean functions, console input becomes an explicit list of input lines,
the file system becomes explicit record-valued state, wall-clock time becomes
explicit integer parameters (seconds), and exceptions become explicit
outcome values.  Every definition is translated from the source file it
names in its doc comment.
-/

/-! ## Python string primitives

`str.strip()` and `int(str)` as used by the prompt loops, and character-list
helpers shared by the PATH-management model. -/

/-- The characters `str.strip()` removes: Python's notion of whitespace
(space, tab, newline, carriage return, vertical tab, form feed). -/
def isPySpace (c : Char) : Bool :=
  c = ' ' || c = '\t' || c = '\n' || c = '\r' || c = '\x0b' || c = '\x0c'

/-- `str.strip()` on a character list: drop whitespace from both ends. -/
def pyStripL (l : List Char) : List Char :=
  ((l.dropWhile isPySpace).reverse.dropWhile isPySpace).reverse

/-- `str.strip()` on a string. -/
def pyStrip (s : String) : String :=
  ⟨pyStripL s.data⟩

/-- Digit run of a Python integer literal after the first digit: ASCII digits
with single underscores allowed between digits (as `int()` accepts). -/
def pyDigitsAux (acc : Nat) : List Char → Option Nat
  | [] => some acc
  | '_' :: c :: cs =>
    if c.isDigit then pyDigitsAux (acc * 10 + (c.toNat - 48)) cs else none
  | c :: cs =>
    if c.isDigit then pyDigitsAux (acc * 10 + (c.toNat - 48)) cs else none

/-- A nonempty digit run (first character must be an ASCII digit). -/
def pyDigitsFirst : List Char → Option Nat
  | [] => none
  | c :: cs => if c.isDigit then pyDigitsAux (c.toNat - 48) cs else none

/-- Python `int(s)` on an already-stripped string: optional sign followed by a
nonempty digit run; `none` models the `ValueError` the prompt loops catch. -/
def pyInt (s : String) : Option Int :=
  match s.data with
  | '+' :: cs => (pyDigitsFirst cs).map Int.ofNat
  | '-' :: cs => (pyDigitsFirst cs).map (fun n => -(n : Int))
  | cs => (pyDigitsFirst cs).map Int.ofNat

/-! ## Catalog data model (initai.py, §3 of the spec)

The JSON catalog returned by `GET /init/shared/list`: frameworks, their
scopes, and each scope's LLM variants. -/

/-- An LLM variant of a scope's package (catalog leaf). -/
structure Variant where
  name : String
  description : String
  download_url : String
deriving DecidableEq

/-- A development scope inside a framework. -/
structure Scope where
  name : String
  description : String
  variants : List Variant
deriving DecidableEq

/-- A framework entry of the catalog. -/
structure Framework where
  name : String
  description : String
  scopes : List Scope
deriving DecidableEq

/-! ## Configuration store (initai.py: `save_configuration`,
`get_current_configuration`) -/

/-- The local `.initai.json` configuration record (spec §3 `LocalConfig`).
`last_updated` is modelled as the UTC instant (seconds since the epoch) that
the written timestamp string denotes: `save_configuration` renders
`datetime.now()` with `strftime("%Y-%m-%dT%H:%M:%SZ")`, and the literal `Z`
suffix makes the written string denote, as an ISO-8601 UTC timestamp, exactly
the local-clock value that was formatted. -/
structure LocalConfig where
  base_url : String
  framework : String
  scope : String
  llm : String
  description : String
  download_url : String
  target_dir : String
  last_updated : Int
  script_version : String
  launch_claude : Option Bool
deriving DecidableEq

/-- `datetime.now()` (initai.py line 377): the local wall clock, i.e. the
current UTC instant shifted by the machine's timezone offset (seconds). -/
def datetime_now (utcNow tzOffsetSeconds : Int) : Int :=
  utcNow + tzOffsetSeconds

/-- The `download_url` string recomputed inside `save_configuration`
(initai.py lines 365-367): `/init/shared/<framework>/<scope>`, with
`/<llm>` appended when `llm != "universal"`. -/
def mkSaveDownloadUrl (framework scope llm : String) : String :=
  let base := "/init/shared/" ++ framework ++ "/" ++ scope
  if llm ≠ "universal" then base ++ "/" ++ llm else base

/-- The configuration dict built by `save_configuration` (initai.py lines
364-383).  `localNow` is the `datetime.now()` value whose rendering becomes
`last_updated`; `"2.1.0"` is `self.current_version`. -/
def saveConfigurationRecord (baseUrl framework scope llm targetDir : String)
    (launchClaude : Option Bool) (localNow : Int) : LocalConfig :=
  { base_url := baseUrl
    framework := framework
    scope := scope
    llm := llm
    description := framework ++ " " ++ scope ++ " development for " ++ llm
    download_url := mkSaveDownloadUrl framework scope llm
    target_dir := targetDir
    last_updated := localNow
    script_version := "2.1.0"
    launch_claude := launchClaude }

/-- `save_configuration` (initai.py lines 364-387) as a transformation of the
config-file state: the file (`Option LocalConfig`, `none` = absent, content
held as its parsed JSON value) is unconditionally overwritten with the fresh
record. -/
def save_configuration (baseUrl framework scope llm targetDir : String)
    (launchClaude : Option Bool) (localNow : Int)
    (_configFile : Option LocalConfig) : Option LocalConfig :=
  some (saveConfigurationRecord baseUrl framework scope llm targetDir
    launchClaude localNow)

/-- `get_current_configuration` (initai.py lines 590-599): returns the parsed
content of `.initai.json`, or `none` when the file is absent. -/
def get_current_configuration (configFile : Option LocalConfig) :
    Option LocalConfig :=
  configFile

/-- `find_download_url` (initai.py lines 319-335): three nested exact-name
lookups; `none` models the `sys.exit(1)` taken when a name is missing. -/
def find_download_url (frameworks : List Framework)
    (selectedFramework selectedScope selectedLlm : String) : Option String :=
  match frameworks.find? (fun f => f.name = selectedFramework) with
  | none => none
  | some fw =>
    match fw.scopes.find? (fun s => s.name = selectedScope) with
    | none => none
    | some sc =>
      match sc.variants.find? (fun v => v.name = selectedLlm) with
      | none => none
      | some v => some v.download_url

/-! ## Selection workflow (initai.py: `select_framework`)

Console input is modelled as the list of lines the user will type; the
infinite retry loop consumes one line per iteration, so on a finite input
list it either returns a selection or is still prompting (`pending`). -/

/-- Outcome of `select_framework` on a (finite prefix of the) input stream. -/
inductive SelOutcome where
  /-- `sys.exit(1)` taken when the framework list is empty. -/
  | exitedNoFrameworks
  /-- `return frameworks[selection_num - 1].get('name')`. -/
  | selected (name : String)
  /-- All provided input lines were consumed without a valid selection: the
  loop is still re-prompting (it never crashes and never returns). -/
  | pending
deriving DecidableEq

/-- The `while True` prompt loop of `select_framework` (initai.py lines
228-237): strip the line, parse with `int()` (a failure prints the retry
message and loops), accept `1 <= n <= len(frameworks)`, otherwise print the
retry message and loop. -/
def selectLoop (frameworks : List Framework) : List String → SelOutcome
  | [] => .pending
  | line :: rest =>
    match pyInt (pyStrip line) with
    | none => selectLoop frameworks rest
    | some n =>
      if h : 1 ≤ n ∧ n ≤ (frameworks.length : Int) then
        .selected (frameworks.get ⟨(n - 1).toNat, by omega⟩).name
      else
        selectLoop frameworks rest

/-- `select_framework` (initai.py lines 216-237): exits when the catalog is
empty, otherwise runs the prompt loop over the input lines. -/
def select_framework (frameworks : List Framework) (inputs : List String) :
    SelOutcome :=
  if frameworks.isEmpty then .exitedNoFrameworks
  else selectLoop frameworks inputs

/-- The first value among the input lines that `int()` parses and that lies
in `[1, n]` — the index the spec says the prompt must resolve to. -/
def firstValidIndex (n : Nat) : List String → Option Int
  | [] => none
  | line :: rest =>
    match pyInt (pyStrip line) with
    | none => firstValidIndex n rest
    | some k =>
      if 1 ≤ k ∧ k ≤ (n : Int) then some k else firstValidIndex n rest

/-! ## Self-update manager (initai.py: `test_script_update`,
`update_script`)

The live script file, its `.new` download target and its `.backup` copy are
explicit state; a failure of one of the three fallible steps of
`update_script` (the download, the backup copy, the swap) is injected
through `UpdFail`, modelling the exception raised at that step. -/

/-- The files `update_script` touches, each `none` when absent:
`initai.py` (the live script, `Path(__file__)`), `initai.new` (the download
target) and `initai.backup` (the backup copy). -/
structure ScriptFS where
  current : Option String
  newFile : Option String
  backup : Option String
deriving DecidableEq

/-- Which step of `update_script`'s `try` block raises, if any. -/
inductive UpdFail where
  /-- Every step succeeds. -/
  | noFail
  /-- `urllib.request.urlretrieve` (line 168) raises. -/
  | atDownload
  /-- `shutil.copy2(current_script, backup_script)` (line 173) raises. -/
  | atBackup
  /-- `shutil.move(temp_script, current_script)` (line 176) raises. -/
  | atSwap
deriving DecidableEq

/-- How `update_script` leaves the process. -/
inductive UpdOutcome where
  /-- `sys.exit(0)` (line 184) after a successful swap; `SystemExit` is not
  an `Exception`, so it is not caught by any handler in the script. -/
  | exited (code : Nat)
  /-- The bare `raise` (line 191) re-raising the step's exception after the
  handler ran. -/
  | raised
deriving DecidableEq

/-- The `try` block of `update_script` (initai.py lines 162-184): download
the new script to the `.new` sibling, copy the current script to `.backup`
when it exists, move `.new` over the live path, `sys.exit(0)`.  An `error`
result carries the file state at the moment the injected step raised. -/
def updateScriptTry (newContent : String) (fail : UpdFail) (fs : ScriptFS) :
    Except ScriptFS ScriptFS :=
  if fail = .atDownload then .error fs
  else
    let fs1 : ScriptFS := { fs with newFile := some newContent }
    if fail = .atBackup then .error fs1
    else
      let fs2 : ScriptFS :=
        match fs1.current with
        | some cur => { fs1 with backup := some cur }
        | none => fs1
      if fail = .atSwap then .error fs2
      else .ok { fs2 with current := fs2.newFile, newFile := none }

/-- `update_script` (initai.py lines 159-191): run the `try` block; on an
exception, move the `.backup` copy back over the live path when it exists
("Restored backup script") and re-raise. -/
def update_script (newContent : String) (fail : UpdFail) (fs : ScriptFS) :
    UpdOutcome × ScriptFS :=
  match updateScriptTry newContent fail fs with
  | .ok fs' => (.exited 0, fs')
  | .error fsErr =>
    match fsErr.backup with
    | some b => (.raised, { fsErr with current := some b, backup := none })
    | none => (.raised, fsErr)

/-- The JSON body of `GET /api/check-updates` as `test_script_update` reads
it (`changelog` is only displayed, so it is not modelled). -/
structure UpdateResponse where
  update_available : Bool
  current_version : String
deriving DecidableEq

/-- What a call of `test_script_update` did. -/
structure TSUResult where
  /-- The value `test_script_update` returned, or `none` when the process
  exited inside `update_script` instead of returning. -/
  returned : Option Bool
  /-- `some code` when the process exited via `sys.exit`. -/
  exited : Option Nat
  /-- The script files after the call. -/
  fs : ScriptFS
  /-- Whether `self.update_script(response)` was invoked. -/
  invokedUpdateScript : Bool
deriving DecidableEq

/-- `test_script_update` (initai.py lines 125-145).  `resp` is the parsed
update-check response, `none` when the HTTP request raised; `updFlag` is
`self.update`; `userConfirms` is the answer `confirm_update` returns.  The
whole body sits in one `try` whose `except Exception` prints a verbose
warning and returns `False` — so an exception re-raised by `update_script`
is caught here too, while the `sys.exit(0)` of a successful update
(a `SystemExit`, not an `Exception`) propagates. -/
def test_script_update (resp : Option UpdateResponse)
    (updFlag userConfirms : Bool) (newContent : String) (fail : UpdFail)
    (fs : ScriptFS) : TSUResult :=
  match resp with
  | none => ⟨some false, none, fs, false⟩
  | some r =>
    if r.update_available then
      if updFlag || userConfirms then
        match update_script newContent fail fs with
        | (.exited code, fs') => ⟨none, some code, fs', true⟩
        | (.raised, fs') => ⟨some false, none, fs', true⟩
      else ⟨some false, none, fs, false⟩
    else ⟨some false, none, fs, false⟩

/-! ## Working-directory state, clear operations and `run` (initai.py) -/

/-- The working-directory files `run` and the clear operations touch: the
`initai/` package directory, the three possible instruction files, the local
`.initai.json` (content as its parsed value) and the global `~/.initai`
preference file. -/
structure WorkState where
  initaiDir : Bool
  claudeMd : Bool
  geminiMd : Bool
  llmInstructionsMd : Bool
  configFile : Option LocalConfig
  globalPref : Option String
deriving DecidableEq

/-- `clear_initai_folder` (initai.py lines 545-567): remove the `initai`
directory and each of `CLAUDE.md`, `GEMINI.md`, `LLM_INSTRUCTIONS.md` when
present; nothing else is touched. -/
def clear_initai_folder (w : WorkState) : WorkState :=
  { w with
    initaiDir := false
    claudeMd := false
    geminiMd := false
    llmInstructionsMd := false }

/-- `clear_all_local_files` (initai.py lines 569-588): `clear_initai_folder`
followed by removal of the local `.initai.json`; the global preference file
is only mentioned in a console note, never modified. -/
def clear_all_local_files (w : WorkState) : WorkState :=
  { clear_initai_folder w with configFile := none }

/-- The command-line flags `run` consults before and at the update check. -/
structure RunFlags where
  update : Bool
  clear : Bool
  clear_all : Bool
  force : Bool
deriving DecidableEq

/-- How far `run` got. -/
inductive RunOutcome where
  /-- `return` after `clear_initai_folder` (line 607). -/
  | clearedOnly
  /-- `return` after `clear_all_local_files` (line 611). -/
  | clearedAll
  /-- The process exited inside the update path with this code. -/
  | exitedAfterUpdate (code : Nat)
  /-- `return` taken because `test_script_update` returned `True`
  (line 617). -/
  | returnedAfterUpdate
  /-- Control reached `test_configuration` and the setup / cached-info part
  of `run` (lines 619-683), which is outside the update and clear claims. -/
  | proceededToSetup
deriving DecidableEq

/-- The result of the modelled prefix of `run`. -/
structure RunResult where
  outcome : RunOutcome
  work : WorkState
  script : ScriptFS
  /-- Whether control reached `test_script_update` (the only network access
  before the setup phase). -/
  updateCheckAttempted : Bool
deriving DecidableEq

/-- `run` (initai.py lines 601-619), up to the point where the setup /
cached-info phase begins: `--clear` is handled first and returns at once,
then `--clear-all`, then the update check runs unconditionally. -/
def run (flags : RunFlags) (resp : Option UpdateResponse)
    (userConfirms : Bool) (newContent : String) (fail : UpdFail)
    (w : WorkState) (sfs : ScriptFS) : RunResult :=
  if flags.clear then ⟨.clearedOnly, clear_initai_folder w, sfs, false⟩
  else if flags.clear_all then ⟨.clearedAll, clear_all_local_files w, sfs, false⟩
  else
    let t := test_script_update resp flags.update userConfirms newContent fail sfs
    match t.exited with
    | some code => ⟨.exitedAfterUpdate code, w, t.fs, true⟩
    | none =>
      if t.returned = some true then ⟨.returnedAfterUpdate, w, t.fs, true⟩
      else ⟨.proceededToSetup, w, t.fs, true⟩

/-! ## Instruction generator (initai.py: `generate_llm_instructions`)

The three f-string templates (initai.py lines 397-440, 444-473, 477-504),
with each `{...}` interpolation turned into string concatenation.
`timestamp` is `datetime.now().strftime("%Y-%m-%d")`. -/

/-- The `CLAUDE.md` template (initai.py lines 397-440). -/
def claudeTemplate (framework scope preferred_llm target_dir timestamp : String) :
    String :=
  "# Claude Instructions for " ++ framework ++ " (" ++ scope ++ ")\n\n## Project Context Management\n- **Always save project context and notes to PROJECT.md**\n- CLAUDE.md contains only initialization instructions (don't modify)\n- Use PROJECT.md for ongoing project documentation, decisions, and context\n- Load PROJECT.md content at start of each session to continue where you left off\n\n## Communication Style\n- Use bullet points for all responses\n- Be concise and direct\n- Focus on actionable information\n\n## Project Setup\n- Framework: "
    ++ framework ++ "\n- Scope: " ++ scope ++ "\n- LLM specialization: "
    ++ preferred_llm ++ "\n- Reference files: " ++ target_dir
    ++ " (READ ONLY - do not modify or generate files here)\n\n## Instructions\nRead the framework guidelines from "
    ++ target_dir
    ++ " at session start, but work in the main project directory:\n\n- **Read** framework configuration from "
    ++ target_dir
    ++ " (reference only)\n- **Apply** coding standards and patterns to your main project files\n- **Use** provided templates as reference for new files in main directory\n- **Load PROJECT.md** to understand current project state\n- **Work in the main project directory** - NOT in the "
    ++ target_dir
    ++ " folder\n\n## File Structure\n- CLAUDE.md - Initialization instructions (static - don't modify)\n- PROJECT.md - Your working context (dynamic - update regularly)\n- "
    ++ target_dir
    ++ "/ - **READ-ONLY** framework reference files and templates\n- Your actual project files - **Work here** (main directory and subdirectories)\n\n## Key Guidelines\n- Always use bullet format for responses\n- Prioritize developer productivity\n- Follow the framework's best practices from "
    ++ target_dir
    ++ " reference\n- Maintain consistency across the project\n- **Save all project decisions and context to PROJECT.md**\n- **IMPORTANT: Generate project files in main directory, NOT in "
    ++ target_dir
    ++ "**\n\n---\nGenerated by initai.dev on " ++ timestamp

/-- The `GEMINI.md` template (initai.py lines 444-473). -/
def geminiTemplate (framework scope preferred_llm target_dir timestamp : String) :
    String :=
  "# Gemini Instructions for " ++ framework ++ " (" ++ scope ++ ")\n\n## Communication Style\n- Use bullet points for all responses\n- Provide detailed explanations when needed\n- Focus on research and analysis\n\n## Project Setup\n- Framework: "
    ++ framework ++ "\n- Scope: " ++ scope ++ "\n- LLM specialization: "
    ++ preferred_llm ++ "\n- Reference files: " ++ target_dir
    ++ " (READ ONLY - do not modify or generate files here)\n\n## Instructions\nRead the framework guidelines from "
    ++ target_dir
    ++ " at session start, but work in the main project directory:\n\n- **Read** framework configuration from "
    ++ target_dir
    ++ " (reference only)\n- **Apply** coding standards and patterns to your main project files\n- **Use** provided templates as reference for new files in main directory\n- **Work in the main project directory** - NOT in the "
    ++ target_dir
    ++ " folder\n\n## Key Guidelines\n- Always use bullet format for responses\n- Leverage analytical capabilities for complex problems\n- Follow the framework's best practices from "
    ++ target_dir
    ++ " reference\n- Provide comprehensive documentation\n- **IMPORTANT: Generate project files in main directory, NOT in "
    ++ target_dir
    ++ "**\n\n---\nGenerated by initai.dev on " ++ timestamp

/-- The `LLM_INSTRUCTIONS.md` template (initai.py lines 477-504). -/
def universalTemplate (framework scope preferred_llm target_dir timestamp : String) :
    String :=
  "# LLM Instructions for " ++ framework ++ " (" ++ scope ++ ")\n\n## Communication Style\n- Use bullet points for all responses\n- Adapt to the specific LLM being used\n- Focus on clear, actionable guidance\n\n## Project Setup\n- Framework: "
    ++ framework ++ "\n- Scope: " ++ scope ++ "\n- LLM specialization: "
    ++ preferred_llm ++ "\n- Initialization files: " ++ target_dir
    ++ "\n\n## Instructions\nPlease read and follow the initialization files in "
    ++ target_dir
    ++ " on every session start:\n\n- Load the framework configuration\n- Apply the coding standards and patterns\n- Use the provided templates and conventions\n\n## Key Guidelines\n- Always use bullet format for responses\n- Work with any LLM provider\n- Follow the framework's best practices\n- Maintain consistency across the project\n\n---\nGenerated by initai.dev on " ++ timestamp

/-- The template-selection part of `generate_llm_instructions` (initai.py
lines 389-506): `llm_file` and `content` start as `""`, the `if/elif/elif`
chain fills them for the three known identities, and the trailing
`if content:` guard means no file is produced when `content` stayed empty.
Returns the `(filename, content)` pair to be written, or `none` when the
function falls through without producing one.  (The overwrite prompt and the
file write of lines 507-525 sit behind this pair and do not change it.) -/
def generate_llm_instructions
    (preferred_llm framework scope target_dir timestamp : String) :
    Option (String × String) :=
  let fc : String × String :=
    if preferred_llm = "claude" then
      ("CLAUDE.md",
        claudeTemplate framework scope preferred_llm target_dir timestamp)
    else if preferred_llm = "gemini" then
      ("GEMINI.md",
        geminiTemplate framework scope preferred_llm target_dir timestamp)
    else if preferred_llm = "universal" then
      ("LLM_INSTRUCTIONS.md",
        universalTemplate framework scope preferred_llm target_dir timestamp)
    else ("", "")
  if fc.2 = "" then none else some fc

/-! ## Bootstrap PATH manager (install.py: `test_path_contains`,
`add_to_user_path`)

File contents and PATH values are character lists; splitting, stripping and
Python's substring operator `in` are modelled by the recursive functions
below. -/

/-- Split a character list at every occurrence of `sep` (Python
`str.split(sep)`): always returns at least one (possibly empty) fragment. -/
def splitSepAux (sep : Char) : List Char → List (List Char)
  | [] => [[]]
  | c :: cs =>
    if c = sep then [] :: splitSepAux sep cs
    else
      match splitSepAux sep cs with
      | [] => [[c]]
      | h :: t => (c :: h) :: t

/-- Whether `needle` is an initial segment of `haystack`. -/
def isPrefixL : List Char → List Char → Bool
  | [], _ => true
  | _ :: _, [] => false
  | a :: as, b :: bs => a = b && isPrefixL as bs

/-- Python's substring test `needle in haystack`. -/
def isInfixL (needle : List Char) : List Char → Bool
  | [] => needle.isEmpty
  | c :: rest => isPrefixL needle (c :: rest) || isInfixL needle rest

/-- `test_path_contains` (install.py lines 54-61): an empty `PATH` value
gives `False`; otherwise split on `os.pathsep` (`:` on Unix) and compare
each stripped entry with the stripped candidate. -/
def test_path_contains (envPath pathToCheck : List Char) : Bool :=
  if envPath = [] then false
  else
    (splitSepAux ':' envPath).any
      (fun entry => pyStripL entry = pyStripL (pathToCheck))

/-- The line `add_to_user_path` manages (install.py line 91):
`export PATH="$PATH:{path_to_add}"`. -/
def export_line (pathToAdd : List Char) : List Char :=
  "export PATH=\"$PATH:".data ++ pathToAdd ++ ['\"']

/-- The comment line written above it (install.py lines 98 and 101). -/
def addedComment : List Char := "# Added by initai.dev".data

/-- The Unix branch of `add_to_user_path` (install.py lines 64-105) as a
transformation of the shell rc file (`none` = the file does not exist):
return unchanged when the process `PATH` already holds the directory;
otherwise append `"\n# Added by initai.dev\n{export_line}\n"` unless
`export_line` already occurs as a substring of the file's content, or create
the file with `"# Added by initai.dev\n{export_line}\n"`. -/
def add_to_user_path (envPath pathToAdd : List Char)
    (rc : Option (List Char)) : Option (List Char) :=
  if test_path_contains envPath pathToAdd then rc
  else
    let line := export_line pathToAdd
    match rc with
    | some content =>
      if isInfixL line content then some content
      else some (content ++ '\n' :: (addedComment ++ '\n' :: (line ++ ['\n'])))
    | none => some (addedComment ++ '\n' :: (line ++ ['\n']))

/-- How many lines of `content` are exactly `line` (the "exactly one line
equal to the export line" count of the spec scenario). -/
def countLinesEq (content line : List Char) : Nat :=
  (splitSepAux '\n' content).count line

/-- The spec scenario's `PATH` environment value. -/
def demoEnvPath : List Char := "/usr/bin:/usr/local/bin".data

/-- The spec scenario's candidate directory. -/
def demoDir : List Char := "/home/u/.local/share/initai".data

/-! ## Supporting lemmas -/

/-- A split never returns the empty list of fragments. -/
lemma splitSepAux_ne_nil (sep : Char) (l : List Char) :
    splitSepAux sep l ≠ [] := by
  induction l with
  | nil => simp [splitSepAux]
  | cons c cs ih =>
    unfold splitSepAux
    by_cases h : c = sep
    · simp [h]
    · simp only [h, if_false]
      cases hs : splitSepAux sep cs with
      | nil => simp
      | cons a t => simp

/-- The first fragment of a split is an initial segment of the input. -/
lemma splitSepAux_head_prefix (sep : Char) (l : List Char) :
    ∃ h t, splitSepAux sep l = h :: t ∧ isPrefixL h l = true := by
  induction l with
  | nil => exact ⟨[], [], rfl, rfl⟩
  | cons c cs ih =>
    by_cases hc : c = sep
    · exact ⟨[], splitSepAux sep cs, by simp [splitSepAux, hc], rfl⟩
    · obtain ⟨h, t, hht, hpre⟩ := ih
      refine ⟨c :: h, t, ?_, ?_⟩
      · simp [splitSepAux, hc, hht]
      · simp [isPrefixL, hpre]

/-- Every fragment of a split occurs as a contiguous substring of the
input. -/
lemma mem_splitSepAux_isInfixL (sep : Char) (l : List Char) (seg : List Char)
    (hmem : seg ∈ splitSepAux sep l) : isInfixL seg l = true := by
  induction l generalizing seg with
  | nil =>
    simp [splitSepAux] at hmem
    simp [hmem, isInfixL]
  | cons c cs ih =>
    by_cases hc : c = sep
    · rw [show splitSepAux sep (c :: cs) = [] :: splitSepAux sep cs by
        simp [splitSepAux, hc]] at hmem
      rcases List.mem_cons.mp hmem with hseg | hseg
      · subst hseg
        simp [isInfixL, isPrefixL]
      · have := ih seg hseg
        simp [isInfixL, this]
    · obtain ⟨h, t, hht, hpre⟩ := splitSepAux_head_prefix sep cs
      rw [show splitSepAux sep (c :: cs) = (c :: h) :: t by
        simp [splitSepAux, hc, hht]] at hmem
      rcases List.mem_cons.mp hmem with hseg | hseg
      · subst hseg
        simp [isInfixL, isPrefixL, hpre]
      · have hseg' : seg ∈ splitSepAux sep cs := by
          rw [hht]; exact List.mem_cons_of_mem _ hseg
        have := ih seg hseg'
        simp [isInfixL, this]

/-- A string that does not occur as a substring is no line of the split. -/
lemma count_splitSepAux_eq_zero (content line : List Char)
    (h : isInfixL line content = false) :
    (splitSepAux '\n' content).count line = 0 := by
  rw [List.count_eq_zero]
  intro hmem
  have := mem_splitSepAux_isInfixL '\n' content line hmem
  rw [this] at h
  exact Bool.true_eq_false.mp h |>.elim

/-- Split at a leading separator. -/
lemma splitSepAux_cons_sep (sep : Char) (cs : List Char) :
    splitSepAux sep (sep :: cs) = [] :: splitSepAux sep cs := by
  rw [splitSepAux]
  simp

/-- Split at a leading non-separator whose tail splits as `h :: t`. -/
lemma splitSepAux_cons_ne (sep c : Char) (cs : List Char) (hc : ¬c = sep)
    (h : List Char) (t : List (List Char))
    (hs : splitSepAux sep cs = h :: t) :
    splitSepAux sep (c :: cs) = (c :: h) :: t := by
  rw [splitSepAux, if_neg hc, hs]

/-- Splitting distributes over an occurrence of the separator. -/
lemma splitSepAux_append (sep : Char) (a b : List Char) :
    splitSepAux sep (a ++ sep :: b) =
      splitSepAux sep a ++ splitSepAux sep b := by
  induction a with
  | nil =>
    rw [List.nil_append, splitSepAux_cons_sep]
    rfl
  | cons c a' ih =>
    by_cases hc : c = sep
    · subst hc
      rw [List.cons_append, splitSepAux_cons_sep, ih, splitSepAux_cons_sep,
        List.cons_append]
    · obtain ⟨h, t, hht⟩ :=
        List.exists_cons_of_ne_nil (splitSepAux_ne_nil sep a')
      have h1 : splitSepAux sep (a' ++ sep :: b) =
          h :: (t ++ splitSepAux sep b) := by
        rw [ih, hht, List.cons_append]
      rw [List.cons_append, splitSepAux_cons_ne sep c _ hc _ _ h1,
        splitSepAux_cons_ne sep c _ hc _ _ hht, List.cons_append]

/-- A needle is a prefix of itself followed by anything. -/
lemma isPrefixL_append_self (n b : List Char) :
    isPrefixL n (n ++ b) = true := by
  induction n with
  | nil => rfl
  | cons a as ih => simp [isPrefixL, ih]

/-- A needle occurring in the middle of a string is found by `isInfixL`. -/
lemma isInfixL_append_mid (n a b : List Char) :
    isInfixL n (a ++ (n ++ b)) = true := by
  induction a with
  | nil =>
    simp only [List.nil_append]
    cases hn : n ++ b with
    | nil =>
      have : n = [] := (List.append_eq_nil.mp hn).1
      simp [this, isInfixL]
    | cons c rest =>
      have hpre := isPrefixL_append_self n b
      rw [hn] at hpre
      simp [isInfixL, hpre]
  | cons c a' ih =>
    simp only [List.cons_append]
    simp [isInfixL, ih]

/-- A nonempty left operand makes a string append nonempty. -/
lemma str_append_ne_left (a b : String) (h : a ≠ "") : a ++ b ≠ "" := by
  intro hab
  apply h
  have hd : a.data ++ b.data = [] := by
    have := congrArg String.data hab
    simpa [String.data_append] using this
  have ha : a.data = [] := (List.append_eq_nil.mp hd).1
  cases a
  simp_all

/-- The Claude template is never the empty string. -/
lemma claudeTemplate_ne_empty (framework scope preferred_llm target_dir
    timestamp : String) :
    claudeTemplate framework scope preferred_llm target_dir timestamp ≠ "" := by
  unfold claudeTemplate
  repeat apply str_append_ne_left
  decide

/-- The Gemini template is never the empty string. -/
lemma geminiTemplate_ne_empty (framework scope preferred_llm target_dir
    timestamp : String) :
    geminiTemplate framework scope preferred_llm target_dir timestamp ≠ "" := by
  unfold geminiTemplate
  repeat apply str_append_ne_left
  decide

/-- The universal template is never the empty string. -/
lemma universalTemplate_ne_empty (framework scope preferred_llm target_dir
    timestamp : String) :
    universalTemplate framework scope preferred_llm target_dir timestamp ≠ "" := by
  unfold universalTemplate
  repeat apply str_append_ne_left
  decide

/-- One invalid prompt line (parse failure or out-of-range value) is skipped:
the loop re-prompts on the remaining input. -/
lemma selectLoop_skip (fws : List Framework) (line : String)
    (rest : List String)
    (h : ∀ k, pyInt (pyStrip line) = some k →
      ¬(1 ≤ k ∧ k ≤ (fws.length : Int))) :
    selectLoop fws (line :: rest) = selectLoop fws rest := by
  rw [selectLoop]
  cases hp : pyInt (pyStrip line) with
  | none => simp only [hp]
  | some k =>
    simp only [hp]
    exact dif_neg (h k hp)

/-- When some input line carries the first valid index `n`, the loop returns
the name of `frameworks[n-1]`. -/
lemma selectLoop_firstValid (fws : List Framework) (inputs : List String)
    (n : Int) (h1 : 1 ≤ n) (h2 : n ≤ (fws.length : Int))
    (hfv : firstValidIndex fws.length inputs = some n) :
    selectLoop fws inputs =
      .selected ((fws.get ⟨(n - 1).toNat, by omega⟩).name) := by
  induction inputs with
  | nil => simp [firstValidIndex] at hfv
  | cons line rest ih =>
    rw [firstValidIndex] at hfv
    rw [selectLoop]
    cases hp : pyInt (pyStrip line) with
    | none =>
      simp only [hp] at hfv ⊢
      exact ih hfv
    | some k =>
      simp only [hp] at hfv ⊢
      by_cases hk : 1 ≤ k ∧ k ≤ (fws.length : Int)
      · rw [if_pos hk] at hfv
        injection hfv with hkn
        subst hkn
        exact dif_pos hk
      · rw [if_neg hk] at hfv
        rw [dif_neg hk]
        exact ih hfv

/-- When no input line carries a valid index, the loop consumes everything
and is still prompting. -/
lemma selectLoop_pending (fws : List Framework) (inputs : List String)
    (hfv : firstValidIndex fws.length inputs = none) :
    selectLoop fws inputs = .pending := by
  induction inputs with
  | nil => rfl
  | cons line rest ih =>
    rw [firstValidIndex] at hfv
    rw [selectLoop]
    cases hp : pyInt (pyStrip line) with
    | none =>
      simp only [hp] at hfv ⊢
      exact ih hfv
    | some k =>
      simp only [hp] at hfv ⊢
      by_cases hk : 1 ≤ k ∧ k ≤ (fws.length : Int)
      · rw [if_pos hk] at hfv
        exact absurd hfv (by simp)
      · rw [if_neg hk] at hfv
        rw [dif_neg hk]
        exact ih hfv

/-! ## Concrete fixtures used by witnesses and counterexamples -/

/-- A one-framework catalog whose variant's `download_url` differs from the
string `save_configuration` recomputes. -/
def demoCatalog : List Framework :=
  [⟨"react", "React framework",
    [⟨"frontend", "Frontend scope",
      [⟨"claude", "Claude variant", "/zips/react-frontend-claude.zip"⟩]⟩]⟩]

/-- A working-directory state with everything present. -/
def demoWork : WorkState :=
  ⟨true, true, true, true,
    some (saveConfigurationRecord "https://initai.dev" "react" "frontend"
      "claude" "initai/react-frontend-claude" none 0),
    some "global-preferences"⟩

/-! ## The claims -/

/-- C1.  `save_configuration` followed by `get_current_configuration` yields
exactly the saved record, so every field round-trips; but the `last_updated`
field is `datetime.now()` — the local clock — rendered with a literal `Z`
suffix, so read as the ISO-8601 UTC timestamp it claims to be it denotes
`utcNow + tzOffset`, which is strictly earlier than the moment `save` was
called on any machine whose timezone offset is negative (second conjunct:
UTC-05:00, offset `-18000` s). -/
theorem C1_save_load_roundtrip_and_timestamp :
    (∀ (baseUrl framework scope llm targetDir : String)
        (launchClaude : Option Bool) (utcNow tzOff : Int)
        (prev : Option LocalConfig),
      get_current_configuration
        (save_configuration baseUrl framework scope llm targetDir launchClaude
          (datetime_now utcNow tzOff) prev) =
      some (saveConfigurationRecord baseUrl framework scope llm targetDir
        launchClaude (datetime_now utcNow tzOff)))
    ∧ (saveConfigurationRecord "https://initai.dev" "react" "frontend"
        "claude" "initai/react-frontend-claude" none
        (datetime_now 1000000 (-18000))).last_updated < 1000000 := by
  exact ⟨fun _ _ _ _ _ _ _ _ _ => rfl, by decide⟩

/-- C2.  For a non-empty catalog, when the first valid index among the
entered lines is `n` (so `1 ≤ n ≤ N`), `select_framework` returns the name
of `frameworks[n-1]`; when no entered line is valid it is still re-prompting
(it neither crashes nor returns a selection); and any single invalid line —
unparsable or out of range, such as `0` or `N+1` — is skipped, leaving the
loop on the remaining input. -/
theorem C2_select_framework_indexing (fws : List Framework)
    (inputs : List String) (hne : fws ≠ []) :
    (∀ (n : Int) (h1 : 1 ≤ n) (h2 : n ≤ (fws.length : Int)),
      firstValidIndex fws.length inputs = some n →
      select_framework fws inputs =
        .selected ((fws.get ⟨(n - 1).toNat, by omega⟩).name))
    ∧ (firstValidIndex fws.length inputs = none →
      select_framework fws inputs = .pending)
    ∧ (∀ line rest,
        (∀ k, pyInt (pyStrip line) = some k →
          ¬(1 ≤ k ∧ k ≤ (fws.length : Int))) →
        select_framework fws (line :: rest) = select_framework fws rest) := by
  have hE : fws.isEmpty = false := by
    cases fws with
    | nil => exact absurd rfl hne
    | cons a l => rfl
  refine ⟨?_, ?_, ?_⟩
  · intro n h1 h2 hfv
    rw [select_framework, hE]
    simp only [Bool.false_eq_true, if_false]
    exact selectLoop_firstValid fws inputs n h1 h2 hfv
  · intro hfv
    rw [select_framework, hE]
    simp only [Bool.false_eq_true, if_false]
    exact selectLoop_pending fws inputs hfv
  · intro line rest h
    rw [select_framework, select_framework, hE]
    simp only [Bool.false_eq_true, if_false]
    exact selectLoop_skip fws line rest h

/-- C2 witness: with two frameworks and the input lines
`"0"`, `"abc"`, `"5"`, `"2"`, the first valid index is `2` and the prompt
returns the second framework's name. -/
theorem C2_select_framework_witness :
    select_framework
      [⟨"react", "React framework", []⟩, ⟨"vue", "Vue framework", []⟩]
      ["0", "abc", "5", "2"] = .selected "vue" := by
  have h :=
    (C2_select_framework_indexing
      [⟨"react", "React framework", []⟩, ⟨"vue", "Vue framework", []⟩]
      ["0", "abc", "5", "2"] (List.cons_ne_nil _ _)).1
      2 (by norm_num) (by norm_num) (by decide)
  exact h

/-- C3.  When the version-check response carries `update_available = false`,
`test_script_update` never invokes `update_script`, returns `False`, and
leaves the script files (in particular the live script's byte content)
unchanged. -/
theorem C3_up_to_date_no_download (v : String) (updFlag userConfirms : Bool)
    (newContent : String) (fail : UpdFail) (fs : ScriptFS) :
    (test_script_update (some ⟨false, v⟩) updFlag userConfirms newContent fail
        fs).invokedUpdateScript = false
    ∧ (test_script_update (some ⟨false, v⟩) updFlag userConfirms newContent
        fail fs).fs = fs
    ∧ (test_script_update (some ⟨false, v⟩) updFlag userConfirms newContent
        fail fs).returned = some false := by
  exact ⟨rfl, rfl, rfl⟩

/-- C4.  When the swap step of `update_script` fails — the one fallible step
that runs after the backup copy was created — the handler moves the backup
back over the live path, restoring its pre-swap byte content, and the error
is re-raised (outcome `raised`). -/
theorem C4_swap_failure_restores_backup (newContent orig : String)
    (nf bk : Option String) :
    update_script newContent .atSwap ⟨some orig, nf, bk⟩ =
      (.raised, ⟨some orig, some newContent, none⟩) := by
  exact rfl

/-- C5 counterexample: a concrete failed swap under `--update`.
`update_script` restores the backup (the live script still holds `"OLD"`)
and re-raises, but the run does not exit non-zero: `run` proceeds to the
normal setup phase, refuting the claim that the caller reports the update
error and exits with a non-zero status. -/
theorem C5_failure_not_fatal_counterexample :
    (run ⟨true, false, false, false⟩ (some ⟨true, "9.9.9"⟩) false "NEW"
        .atSwap demoWork ⟨some "OLD", none, none⟩).outcome =
      .proceededToSetup
    ∧ (run ⟨true, false, false, false⟩ (some ⟨true, "9.9.9"⟩) false "NEW"
        .atSwap demoWork ⟨some "OLD", none, none⟩).script.current =
      some "OLD" := by
  exact ⟨by decide, by decide⟩

/-- C5 (amended).  For every failure during the self-update download or swap,
`update_script` attempts backup restoration (for a swap failure the live
script is restored to its pre-swap content) and re-raises — but the raised
error is caught by the enclosing `try/except` of `test_script_update`, which
logs a verbose warning and returns `False`; `run` therefore continues with
the normal setup phase and the failed update causes no non-zero exit. -/
theorem C5_update_failure_swallowed (v newContent : String) (confirms : Bool)
    (fail : UpdFail) (hfail : fail ≠ UpdFail.noFail) (orig : String)
    (nf bk : Option String) (w : WorkState) :
    (test_script_update (some ⟨true, v⟩) true confirms newContent fail
        ⟨some orig, nf, bk⟩).invokedUpdateScript = true
    ∧ (test_script_update (some ⟨true, v⟩) true confirms newContent fail
        ⟨some orig, nf, bk⟩).returned = some false
    ∧ (test_script_update (some ⟨true, v⟩) true confirms newContent fail
        ⟨some orig, nf, bk⟩).exited = none
    ∧ (fail = .atSwap →
        (test_script_update (some ⟨true, v⟩) true confirms newContent fail
          ⟨some orig, nf, bk⟩).fs.current = some orig)
    ∧ (run ⟨true, false, false, false⟩ (some ⟨true, v⟩) confirms newContent
        fail w ⟨some orig, nf, bk⟩).outcome = .proceededToSetup := by
  cases fail with
  | noFail => exact absurd rfl hfail
  | atDownload =>
    cases bk <;>
      simp [test_script_update, update_script, updateScriptTry, run]
  | atBackup =>
    cases bk <;>
      simp [test_script_update, update_script, updateScriptTry, run]
  | atSwap =>
    simp [test_script_update, update_script, updateScriptTry, run]

/-- C5 witness: the amended theorem at the concrete failed swap of the
counterexample. -/
theorem C5_update_failure_swallowed_witness :
    (test_script_update (some ⟨true, "9.9.9"⟩) true false "NEW" .atSwap
        ⟨some "OLD", none, none⟩).returned = some false
    ∧ (run ⟨true, false, false, false⟩ (some ⟨true, "9.9.9"⟩) false "NEW"
        .atSwap demoWork ⟨some "OLD", none, none⟩).outcome =
      .proceededToSetup := by
  have h := C5_update_failure_swallowed "9.9.9" "NEW" false .atSwap
    (by decide) "OLD" none none demoWork
  exact ⟨h.2.1, h.2.2.2.2⟩

/-- C6 counterexample: an llm identity other than the three known ones —
here `"gpt-4"` — produces no `(filename, content)` pair at all (the
`if content:` guard fails), refuting the claim that any other identity
yields `LLM_INSTRUCTIONS.md`. -/
theorem C6_unknown_llm_counterexample :
    generate_llm_instructions "gpt-4" "react" "frontend"
      "initai/react-frontend-gpt-4" "2026-10-12" = none := by
  decide

/-- C6 (amended).  `generate_llm_instructions` maps `"claude"` to
`CLAUDE.md`, `"gemini"` to `GEMINI.md` and `"universal"` to
`LLM_INSTRUCTIONS.md`, each paired with its fixed template; every other llm
identity produces no `(filename, content)` pair (no instruction file is
written for it). -/
theorem C6_template_dispatch (framework scope target_dir timestamp
    llm : String) :
    generate_llm_instructions "claude" framework scope target_dir timestamp =
      some ("CLAUDE.md",
        claudeTemplate framework scope "claude" target_dir timestamp)
    ∧ generate_llm_instructions "gemini" framework scope target_dir
        timestamp =
      some ("GEMINI.md",
        geminiTemplate framework scope "gemini" target_dir timestamp)
    ∧ generate_llm_instructions "universal" framework scope target_dir
        timestamp =
      some ("LLM_INSTRUCTIONS.md",
        universalTemplate framework scope "universal" target_dir timestamp)
    ∧ (llm ≠ "claude" → llm ≠ "gemini" → llm ≠ "universal" →
        generate_llm_instructions llm framework scope target_dir timestamp =
          none) := by
  refine ⟨?_, ?_, ?_, ?_⟩
  · simp [generate_llm_instructions,
      claudeTemplate_ne_empty framework scope "claude" target_dir timestamp]
  · simp [generate_llm_instructions,
      geminiTemplate_ne_empty framework scope "gemini" target_dir timestamp]
  · simp [generate_llm_instructions,
      universalTemplate_ne_empty framework scope "universal" target_dir
        timestamp]
  · intro h1 h2 h3
    simp [generate_llm_instructions, h1, h2, h3]

/-- C6 witness: the amended theorem at `"claude"` (a pair is produced) and
at the unknown identity `"mistral"` (no pair). -/
theorem C6_template_dispatch_witness :
    generate_llm_instructions "claude" "react" "frontend"
      "initai/react-frontend-claude" "2026-10-12" =
      some ("CLAUDE.md", claudeTemplate "react" "frontend" "claude"
        "initai/react-frontend-claude" "2026-10-12")
    ∧ generate_llm_instructions "mistral" "react" "frontend"
      "initai/react-frontend-mistral" "2026-10-12" = none := by
  exact ⟨(C6_template_dispatch "react" "frontend" "initai/react-frontend-claude"
      "2026-10-12" "mistral").1,
    (C6_template_dispatch "react" "frontend" "initai/react-frontend-mistral"
      "2026-10-12" "mistral").2.2.2 (by decide) (by decide) (by decide)⟩

/-- C7.  `clear_initai_folder` removes the package directory and the three
instruction files while leaving the local config and the global preference
file untouched; `clear_all_local_files` is exactly `clear_initai_folder`
plus removal of the local config, and it too never touches the global
preference file. -/
theorem C7_clear_semantics (w : WorkState) :
    (clear_initai_folder w).initaiDir = false
    ∧ (clear_initai_folder w).claudeMd = false
    ∧ (clear_initai_folder w).geminiMd = false
    ∧ (clear_initai_folder w).llmInstructionsMd = false
    ∧ (clear_initai_folder w).configFile = w.configFile
    ∧ (clear_initai_folder w).globalPref = w.globalPref
    ∧ clear_all_local_files w =
        { clear_initai_folder w with configFile := none }
    ∧ (clear_all_local_files w).configFile = none
    ∧ (clear_all_local_files w).globalPref = w.globalPref := by
  exact ⟨rfl, rfl, rfl, rfl, rfl, rfl, rfl, rfl, rfl⟩

/-- C9.  The `download_url` field written by `save_configuration` is the
string `/init/shared/<framework>/<scope>`, with `/<llm>` appended exactly
when the llm differs from `"universal"` — recomputed from the selected
triple, not taken from the catalog: in `demoCatalog` the variant actually
downloaded (`find_download_url`) carries `/zips/react-frontend-claude.zip`,
while the saved field is `/init/shared/react/frontend/claude`. -/
theorem C9_saved_download_url_recomputed (baseUrl framework scope llm
    targetDir : String) (launchClaude : Option Bool) (localNow : Int) :
    (saveConfigurationRecord baseUrl framework scope llm targetDir
        launchClaude localNow).download_url =
      (if llm ≠ "universal"
        then "/init/shared/" ++ framework ++ "/" ++ scope ++ "/" ++ llm
        else "/init/shared/" ++ framework ++ "/" ++ scope)
    ∧ find_download_url demoCatalog "react" "frontend" "claude" =
        some "/zips/react-frontend-claude.zip"
    ∧ (saveConfigurationRecord baseUrl "react" "frontend" "claude" targetDir
        launchClaude localNow).download_url =
      "/init/shared/react/frontend/claude"
    ∧ ("/zips/react-frontend-claude.zip" : String) ≠
        "/init/shared/react/frontend/claude" := by
  refine ⟨rfl, by decide, rfl, by decide⟩

/-- C10.  When both `--clear` and `--clear-all` are set, `run` takes the
`--clear` branch first and returns at once: the package directory and
instruction files are removed, the local config file is left unchanged, and
no update check (the only network access before setup) is attempted. -/
theorem C10_clear_wins_over_clear_all (u f : Bool)
    (resp : Option UpdateResponse) (confirms : Bool) (newContent : String)
    (fail : UpdFail) (w : WorkState) (sfs : ScriptFS) :
    run ⟨u, true, true, f⟩ resp confirms newContent fail w sfs =
      ⟨.clearedOnly, clear_initai_folder w, sfs, false⟩
    ∧ (run ⟨u, true, true, f⟩ resp confirms newContent fail w
        sfs).work.configFile = w.configFile
    ∧ (run ⟨u, true, true, f⟩ resp confirms newContent fail w
        sfs).updateCheckAttempted = false := by
  exact ⟨rfl, rfl, rfl⟩

/-- C8 counterexample: a shell rc file that already contains the export line
twice.  `add_to_user_path` finds the line as a substring and appends
nothing, so after the call the file still contains two — not exactly one —
lines equal to `export PATH="$PATH:/home/u/.local/share/initai"`, refuting
the claim's quantification over every rc file state. -/
theorem C8_double_line_counterexample :
    add_to_user_path demoEnvPath demoDir
        (some (export_line demoDir ++ '\n' :: export_line demoDir)) =
      some (export_line demoDir ++ '\n' :: export_line demoDir)
    ∧ countLinesEq (export_line demoDir ++ '\n' :: export_line demoDir)
        (export_line demoDir) = 2
    ∧ countLinesEq (export_line demoDir ++ '\n' :: export_line demoDir)
        (export_line demoDir) ≠ 1 := by
  exact ⟨by decide, by decide, by decide⟩

/-- C8 (amended).  In the spec scenario (`PATH=/usr/bin:/usr/local/bin`,
candidate `/home/u/.local/share/initai`) `test_path_contains` returns
`false`; and for every rc file state that does not already contain the
export line as a substring — including an absent file — one call of
`add_to_user_path` leaves the file with exactly one line equal to
`export PATH="$PATH:/home/u/.local/share/initai"`, and a second call leaves
the file unchanged (the append is idempotent from such states). -/
theorem C8_path_contains_and_idempotent_append :
    test_path_contains demoEnvPath demoDir = false
    ∧ ∀ rc : Option (List Char),
        (∀ c, rc = some c → isInfixL (export_line demoDir) c = false) →
        ∃ c1, add_to_user_path demoEnvPath demoDir rc = some c1
          ∧ countLinesEq c1 (export_line demoDir) = 1
          ∧ add_to_user_path demoEnvPath demoDir (some c1) = some c1 := by
  have hfalse : test_path_contains demoEnvPath demoDir = false := by decide
  refine ⟨hfalse, ?_⟩
  intro rc hrc
  match rc with
  | none =>
    refine ⟨addedComment ++ '\n' :: (export_line demoDir ++ ['\n']),
      ?_, ?_, ?_⟩
    · simp [add_to_user_path, hfalse]
    · decide
    · decide
  | some content =>
    have hinf : isInfixL (export_line demoDir) content = false :=
      hrc content rfl
    refine ⟨content ++ '\n' ::
        (addedComment ++ '\n' :: (export_line demoDir ++ ['\n'])),
      ?_, ?_, ?_⟩
    · simp [add_to_user_path, hfalse, hinf]
    · rw [countLinesEq, splitSepAux_append, List.count_append,
        count_splitSepAux_eq_zero content _ hinf, Nat.zero_add]
      decide
    · have h2 : isInfixL (export_line demoDir)
          (content ++ '\n' ::
            (addedComment ++ '\n' :: (export_line demoDir ++ ['\n']))) =
          true := by
        have h3 := isInfixL_append_mid (export_line demoDir)
          (content ++ '\n' :: (addedComment ++ ['\n'])) ['\n']
        simpa [List.append_assoc] using h3
      simp [add_to_user_path, hfalse, h2]

/-- C8 witness: the amended theorem at the absent-file state — the file is
created with exactly one export line. -/
theorem C8_path_append_witness :
    test_path_contains demoEnvPath demoDir = false
    ∧ (add_to_user_path demoEnvPath demoDir none).map
        (fun c => countLinesEq c (export_line demoDir)) = some 1 := by
  obtain ⟨hfalse, h⟩ := C8_path_contains_and_idempotent_append
  obtain ⟨c1, h1, h2, h3⟩ := h none (fun c hc => nomatch hc)
  refine ⟨hfalse, ?_⟩
  rw [h1]
  simp [h2]
